import Mathlib

/-!
Shallow embedding of the configuration module of the `opcua` server crate
(`src/server/src/config.rs`) together with the fuzz entrypoint
(`src/types/fuzz/fuzz_targets/fuzz_target_1.rs`).

Modelling conventions:
* Rust `String` is Lean `String`; `&[u8]` is `List Nat` (each element a byte value);
  `u16`/`u32` are `Nat` (no arithmetic is performed on them, so no wrap-around
  can arise).
* `Option<T>` is `Option T`; a Rust function that can panic is embedded as a
  function into `Option`, with `none` standing for the panic.
* The `error!` logging inside the validation predicates is a side effect with no
  influence on the returned value and is not modelled; only the boolean result is.
* File-system state is a map from paths to file contents; serde_yaml
  serialization is modelled at the level of the document tree (`Yaml` below),
  since the textual rendering performed by the external `serde_yaml` crate is an
  injective encoding of that tree.
-/

/-- Byte-level UTF-8 decoding, modelling Rust's `String::from_utf8` validity
check (external standard-library behaviour): a left-to-right scan where `need`
counts continuation bytes still expected for the current code point, `lo`/`hi`
bound the next byte, `acc` accumulates the code point and `cs` the decoded
characters in reverse order.  Rejects overlong forms, surrogates and code
points above `0x10FFFF`, exactly as Rust does. -/
def utf8Run (need lo hi acc : Nat) (cs : List Char) : List Nat → Option (List Char)
  | [] => if need = 0 then some cs.reverse else none
  | b :: l =>
    if need = 0 then
      if b ≤ 0x7F then utf8Run 0 0 0 0 (Char.ofNat b :: cs) l
      else if b < 0xC2 then none
      else if b ≤ 0xDF then utf8Run 1 0x80 0xBF (b - 0xC0) cs l
      else if b = 0xE0 then utf8Run 2 0xA0 0xBF 0 cs l
      else if b ≤ 0xEC then utf8Run 2 0x80 0xBF (b - 0xE0) cs l
      else if b = 0xED then utf8Run 2 0x80 0x9F (b - 0xE0) cs l
      else if b ≤ 0xEF then utf8Run 2 0x80 0xBF (b - 0xE0) cs l
      else if b = 0xF0 then utf8Run 3 0x90 0xBF 0 cs l
      else if b ≤ 0xF3 then utf8Run 3 0x80 0xBF (b - 0xF0) cs l
      else if b = 0xF4 then utf8Run 3 0x80 0x8F (b - 0xF0) cs l
      else none
    else
      if lo ≤ b ∧ b ≤ hi then
        if need = 1 then utf8Run 0 0 0 0 (Char.ofNat (acc * 0x40 + (b - 0x80)) :: cs) l
        else utf8Run (need - 1) 0x80 0xBF (acc * 0x40 + (b - 0x80)) cs l
      else none

/-- Rust `String::from_utf8(bytes)`: `some` of the decoded string when `bytes`
is valid UTF-8, `none` (the `Err` case, hence a panic under `.unwrap()`)
otherwise. -/
def fromUtf8 (bytes : List Nat) : Option String :=
  (utf8Run 0 0 0 0 [] bytes).map fun cs => String.mk cs

/-- `TcpConfig` from `src/server/src/config.rs`. -/
structure TcpConfig where
  hello_timeout : Nat
  host : String
  port : Nat
deriving DecidableEq

/-- `ServerEndpoint` from `src/server/src/config.rs`. -/
structure ServerEndpoint where
  name : String
  path : String
  security_policy : String
  security_mode : String
  anonymous : Option Bool
  user : Option String
  pass : Option String
deriving DecidableEq

def DEFAULT_ENDPOINT_NAME : String := "Default"
def DEFAULT_ENDPOINT_PATH : String := "/"

def SECURITY_POLICY_NONE : String := "None"
def SECURITY_POLICY_BASIC_128_RSA_15 : String := "Basic128Rsa15"
def SECURITY_POLICY_BASIC_256 : String := "Basic256"
def SECURITY_POLICY_BASIC_256_SHA_256 : String := "Basic256Sha256"
def DEFAULT_SECURITY_POLICY : String := SECURITY_POLICY_NONE

def SECURITY_MODE_NONE : String := "None"
def SECURITY_MODE_SIGN : String := "Sign"
def SECURITY_MODE_SIGN_AND_ENCRYPT : String := "SignAndEncrypt"
def DEFAULT_SECURITY_MODE : String := SECURITY_MODE_NONE

/-- `ServerEndpoint::new`.  The `pass` field is built by
`String::from_utf8(pass.to_vec()).unwrap()` when `user` is non-empty, a panic
on non-UTF-8 input; the panic is embedded as `none`. -/
def ServerEndpoint.new (name path : String) (anonymous : Bool) (user : String)
    (pass : List Nat) (security_policy security_mode : String) :
    Option ServerEndpoint :=
  if user.isEmpty then
    some { name := name, path := path, anonymous := some anonymous,
           user := none, pass := none,
           security_policy := security_policy, security_mode := security_mode }
  else
    (fromUtf8 pass).map fun passStr =>
      { name := name, path := path, anonymous := some anonymous,
        user := some user, pass := some passStr,
        security_policy := security_policy, security_mode := security_mode }

/-- `ServerEndpoint::new_default`. -/
def ServerEndpoint.new_default (anonymous : Bool) (user : String) (pass : List Nat)
    (security_policy security_mode : String) : Option ServerEndpoint :=
  ServerEndpoint.new DEFAULT_ENDPOINT_NAME DEFAULT_ENDPOINT_PATH anonymous user pass
    security_policy security_mode

/-- `ServerEndpoint::default_anonymous`. -/
def ServerEndpoint.default_anonymous : Option ServerEndpoint :=
  ServerEndpoint.new_default true "" [] DEFAULT_SECURITY_POLICY DEFAULT_SECURITY_MODE

/-- `ServerEndpoint::default_user_pass`. -/
def ServerEndpoint.default_user_pass (user : String) (pass : List Nat) :
    Option ServerEndpoint :=
  ServerEndpoint.new_default false user pass DEFAULT_SECURITY_POLICY DEFAULT_SECURITY_MODE

/-- `ServerEndpoint::is_valid`: the conjunction of the five checks in the
source; each failing check sets the `valid` flag to false (and logs), so the
result is exactly the conjunction. -/
def ServerEndpoint.is_valid (e : ServerEndpoint) : Bool :=
  let credsOk : Bool :=
    ! ((e.user.isSome && e.pass.isNone) || (e.user.isNone && e.pass.isSome))
  let policyOk : Bool :=
    (e.security_policy == SECURITY_POLICY_NONE) ||
    (e.security_policy == SECURITY_POLICY_BASIC_128_RSA_15) ||
    (e.security_policy == SECURITY_POLICY_BASIC_256) ||
    (e.security_policy == SECURITY_POLICY_BASIC_256_SHA_256)
  let modeOk : Bool :=
    (e.security_mode == SECURITY_MODE_NONE) ||
    (e.security_mode == SECURITY_MODE_SIGN) ||
    (e.security_mode == SECURITY_MODE_SIGN_AND_ENCRYPT)
  let agreeOk : Bool :=
    ! ((e.security_policy == SECURITY_POLICY_NONE && e.security_mode != SECURITY_MODE_NONE) ||
       (e.security_policy != SECURITY_POLICY_NONE && e.security_mode == SECURITY_MODE_NONE))
  let anonOk : Bool :=
    ! (e.security_policy == SECURITY_POLICY_NONE && e.security_mode == SECURITY_MODE_NONE &&
       (match e.anonymous with
        | none => true
        | some a => !a))
  credsOk && policyOk && modeOk && agreeOk && anonOk

/-- `ServerConfig` from `src/server/src/config.rs`. -/
structure ServerConfig where
  application_name : String
  application_uri : String
  product_uri : String
  pki_dir : String
  discovery_service : Bool
  tcp_config : TcpConfig
  endpoints : List ServerEndpoint
  max_array_length : Nat
  max_string_length : Nat
  max_byte_string_length : Nat
deriving DecidableEq

/-- Modelled from the spec: the `constants` module is not under `src/`.  The
spec requires a loopback host, the well-known default port, a default handshake
timeout, and non-zero default limits for array/string/byte-string sizes. -/
def DEFAULT_OPC_UA_SERVER_PORT : Nat := 4840

/-- Modelled from the spec: default handshake timeout (`constants` module not
under `src/`); any positive number of seconds fits the spec. -/
def DEFAULT_HELLO_TIMEOUT_SECONDS : Nat := 120

/-- Modelled from the spec: non-zero default limit (`constants` module not
under `src/`). -/
def DEFAULT_MAX_ARRAY_LENGTH : Nat := 65536

/-- Modelled from the spec: non-zero default limit (`constants` module not
under `src/`). -/
def DEFAULT_MAX_STRING_LENGTH : Nat := 65536

/-- Modelled from the spec: non-zero default limit (`constants` module not
under `src/`). -/
def DEFAULT_MAX_BYTE_STRING_LENGTH : Nat := 65536

/-- `ServerConfig::default`. -/
def ServerConfig.default (endpoints : List ServerEndpoint) : ServerConfig :=
  { application_name := "OPCUA-Rust"
    application_uri := "urn:" ++ "OPCUA-Rust"
    product_uri := "urn:" ++ "OPCUA-Rust"
    discovery_service := true
    pki_dir := "pki"
    tcp_config :=
      { host := "127.0.0.1"
        port := DEFAULT_OPC_UA_SERVER_PORT
        hello_timeout := DEFAULT_HELLO_TIMEOUT_SECONDS }
    endpoints := endpoints
    max_array_length := DEFAULT_MAX_ARRAY_LENGTH
    max_string_length := DEFAULT_MAX_STRING_LENGTH
    max_byte_string_length := DEFAULT_MAX_BYTE_STRING_LENGTH }

/-- `ServerConfig::default_anonymous`; the endpoint constructor cannot panic
here (empty user), the `Option` is inherited from the embedding of `new`. -/
def ServerConfig.default_anonymous : Option ServerConfig :=
  ServerEndpoint.default_anonymous.map fun e => ServerConfig.default [e]

/-- `ServerConfig::default_user_pass`. -/
def ServerConfig.default_user_pass (user : String) (pass : List Nat) :
    Option ServerConfig :=
  (ServerEndpoint.default_user_pass user pass).map fun e => ServerConfig.default [e]

/-- `ServerConfig::is_valid`: empty endpoint list, each endpoint's own
validity, and the three numeric limits; every failing check clears the flag. -/
def ServerConfig.is_valid (c : ServerConfig) : Bool :=
  let endpointsNonEmpty : Bool := ! c.endpoints.isEmpty
  let endpointsOk : Bool := c.endpoints.all fun e => e.is_valid
  let arrayOk : Bool := c.max_array_length != 0
  let stringOk : Bool := c.max_string_length != 0
  let byteStringOk : Bool := c.max_byte_string_length != 0
  endpointsNonEmpty && endpointsOk && arrayOk && stringOk && byteStringOk

/-- Modelled from the spec: the structured text document written and read by
the external `serde_yaml` crate, represented at the document-tree level (the
crate's rendering of a tree to text is injective, so the tree is the faithful
unit of persistence). -/
inductive Yaml where
  | str : String → Yaml
  | num : Nat → Yaml
  | bool : Bool → Yaml
  | null : Yaml
  | seq : List Yaml → Yaml
  | map : List (String × Yaml) → Yaml

/-- Serde serialization of `Option<String>`: `None` becomes a null scalar. -/
def yamlOfOptStr : Option String → Yaml
  | none => Yaml.null
  | some s => Yaml.str s

/-- Serde deserialization of `Option<String>`. -/
def optStrOfYaml : Yaml → Option (Option String)
  | Yaml.null => some none
  | Yaml.str s => some (some s)
  | _ => none

/-- Serde serialization of `Option<bool>`. -/
def yamlOfOptBool : Option Bool → Yaml
  | none => Yaml.null
  | some b => Yaml.bool b

/-- Serde deserialization of `Option<bool>`. -/
def optBoolOfYaml : Yaml → Option (Option Bool)
  | Yaml.null => some none
  | Yaml.bool b => some (some b)
  | _ => none

/-- Derived `Serialize` for `ServerEndpoint`: fields in declaration order. -/
def endpointToYaml (e : ServerEndpoint) : Yaml :=
  Yaml.map
    [("name", Yaml.str e.name),
     ("path", Yaml.str e.path),
     ("security_policy", Yaml.str e.security_policy),
     ("security_mode", Yaml.str e.security_mode),
     ("anonymous", yamlOfOptBool e.anonymous),
     ("user", yamlOfOptStr e.user),
     ("pass", yamlOfOptStr e.pass)]

/-- Derived `Deserialize` for `ServerEndpoint`. -/
def endpointOfYaml : Yaml → Option ServerEndpoint
  | Yaml.map
      [("name", Yaml.str name),
       ("path", Yaml.str path),
       ("security_policy", Yaml.str sp),
       ("security_mode", Yaml.str sm),
       ("anonymous", a),
       ("user", u),
       ("pass", p)] => do
    let anonymous ← optBoolOfYaml a
    let user ← optStrOfYaml u
    let pass ← optStrOfYaml p
    some { name := name, path := path, security_policy := sp, security_mode := sm,
           anonymous := anonymous, user := user, pass := pass }
  | _ => none

/-- Derived `Serialize` for `TcpConfig`. -/
def tcpConfigToYaml (t : TcpConfig) : Yaml :=
  Yaml.map
    [("hello_timeout", Yaml.num t.hello_timeout),
     ("host", Yaml.str t.host),
     ("port", Yaml.num t.port)]

/-- Derived `Serialize` for `ServerConfig`. -/
def configToYaml (c : ServerConfig) : Yaml :=
  Yaml.map
    [("application_name", Yaml.str c.application_name),
     ("application_uri", Yaml.str c.application_uri),
     ("product_uri", Yaml.str c.product_uri),
     ("pki_dir", Yaml.str c.pki_dir),
     ("discovery_service", Yaml.bool c.discovery_service),
     ("tcp_config", tcpConfigToYaml c.tcp_config),
     ("endpoints", Yaml.seq (c.endpoints.map endpointToYaml)),
     ("max_array_length", Yaml.num c.max_array_length),
     ("max_string_length", Yaml.num c.max_string_length),
     ("max_byte_string_length", Yaml.num c.max_byte_string_length)]

/-- Serde deserialization of a sequence of endpoints: each element must parse,
in order. -/
def decodeEndpoints : List Yaml → Option (List ServerEndpoint)
  | [] => some []
  | y :: l => do
    let e ← endpointOfYaml y
    let rest ← decodeEndpoints l
    some (e :: rest)

/-- Derived `Deserialize` for `ServerConfig` (with nested `TcpConfig` and the
endpoint sequence). -/
def configOfYaml : Yaml → Option ServerConfig
  | Yaml.map
      [("application_name", Yaml.str an),
       ("application_uri", Yaml.str au),
       ("product_uri", Yaml.str pu),
       ("pki_dir", Yaml.str pd),
       ("discovery_service", Yaml.bool ds),
       ("tcp_config", Yaml.map
          [("hello_timeout", Yaml.num ht),
           ("host", Yaml.str host),
           ("port", Yaml.num port)]),
       ("endpoints", Yaml.seq eps),
       ("max_array_length", Yaml.num mal),
       ("max_string_length", Yaml.num msl),
       ("max_byte_string_length", Yaml.num mbsl)] => do
    let endpoints ← decodeEndpoints eps
    some { application_name := an, application_uri := au, product_uri := pu,
           pki_dir := pd, discovery_service := ds,
           tcp_config := { hello_timeout := ht, host := host, port := port },
           endpoints := endpoints,
           max_array_length := mal, max_string_length := msl,
           max_byte_string_length := mbsl }
  | _ => none

/-- Content of a file on disk: a well-formed configuration document, or bytes
that fail to read back as such a document (covers a truncated write and any
other unparseable text). -/
inductive FileData where
  | doc : Yaml → FileData
  | garbage : FileData

/-- The file system as state: a map from paths to the contents of existing
files. -/
def FileSystem : Type := String → Option FileData

/-- `ServerConfig::save`.  `createOk` models whether `File::create(path)`
succeeds and `writeOk` whether `write_all` completes; a created file whose
write does not complete holds garbage.  Returns the `Result` together with the
file system after the call. -/
def ServerConfig.save (c : ServerConfig) (fs : FileSystem) (path : String)
    (createOk writeOk : Bool) : Except Unit Unit × FileSystem :=
  if c.is_valid then
    if createOk then
      if writeOk then
        (Except.ok (), fun q => if q = path then some (FileData.doc (configToYaml c)) else fs q)
      else
        (Except.error (), fun q => if q = path then some FileData.garbage else fs q)
    else (Except.error (), fs)
  else (Except.error (), fs)

/-- `ServerConfig::load`: open the file, read it, parse it; any failure
collapses to `Err(())`.  No validity check is performed. -/
def ServerConfig.load (fs : FileSystem) (path : String) : Except Unit ServerConfig :=
  match fs path with
  | some (FileData.doc y) =>
    match configOfYaml y with
    | some c => Except.ok c
    | none => Except.error ()
  | some FileData.garbage => Except.error ()
  | none => Except.error ()

/-- Modelled from the spec: `DecodingOptions` from the `opcua_types` crate is
not under `src/`.  The spec gives it the three size limits that cap memory
allocation during message decoding. -/
structure DecodingOptions where
  max_array_length : Nat
  max_string_length : Nat
  max_byte_string_length : Nat

/-- Modelled from the spec: `DecodingOptions::default()`, with non-zero default
limits as the spec requires. -/
def DecodingOptions.default : DecodingOptions :=
  { max_array_length := DEFAULT_MAX_ARRAY_LENGTH
    max_string_length := DEFAULT_MAX_STRING_LENGTH
    max_byte_string_length := DEFAULT_MAX_BYTE_STRING_LENGTH }

/-- Modelled from the spec: the structured error codes returned by the decode
entrypoint (`StatusCode` in the `opcua_types` crate, not under `src/`). -/
inductive StatusCode where
  | BadDecodingError
  | BadEncodingLimitsExceeded

/-- Modelled from the spec: the protocol value type decoded from the wire
(`Variant` in the `opcua_types` crate, not under `src/`); a representative set
of scalar forms plus the length-prefixed string and byte-string forms the
limits guard. -/
inductive Variant where
  | Empty
  | Boolean (b : Bool)
  | Int32 (v : Int)
  | UAString (bytes : List Nat)
  | ByteString (bytes : List Nat)

/-- Read a little-endian 32-bit value from the head of the stream, failing on
truncation. -/
def readU32 : List Nat → Option (Nat × List Nat)
  | b0 :: b1 :: b2 :: b3 :: rest =>
    some (b0 + b1 * 0x100 + b2 * 0x10000 + b3 * 0x1000000, rest)
  | _ => none

/-- Read exactly `n` bytes from the head of the stream, failing on
truncation. -/
def readBytes (n : Nat) (data : List Nat) : Option (List Nat × List Nat) :=
  if data.length < n then none else some (data.take n, data.drop n)

/-- Decode one length-prefixed field (string or byte string): a signed 32-bit
length where `-1` denotes the null value, checked against the configured limit
before any bytes are taken, then the payload, failing on truncation. -/
def decodeLenPrefixed (limit : Nat) (data : List Nat)
    (mk : List Nat → Variant) : Except StatusCode Variant :=
  match readU32 data with
  | none => Except.error StatusCode.BadDecodingError
  | some (len, rest) =>
    if len = 0xFFFFFFFF then Except.ok (mk [])
    else if 0x80000000 ≤ len then Except.error StatusCode.BadDecodingError
    else if limit ≠ 0 ∧ limit < len then Except.error StatusCode.BadEncodingLimitsExceeded
    else
      match readBytes len rest with
      | some (bs, _) => Except.ok (mk bs)
      | none => Except.error StatusCode.BadDecodingError

/-- Modelled from the spec: `Variant::decode(stream, decoding_options)`, the
wire-format decode entrypoint — a type byte followed by the value's encoding,
with the length-prefixed forms bounded by the configured limits.  Any
unrecognised or truncated input yields a structured error; the definition is
total, so decoding terminates on every byte sequence. -/
def Variant.decode (data : List Nat) (opts : DecodingOptions) :
    Except StatusCode Variant :=
  match data with
  | [] => Except.error StatusCode.BadDecodingError
  | t :: rest =>
    if t = 0 then Except.ok Variant.Empty
    else if t = 1 then
      match rest with
      | b :: _ => Except.ok (Variant.Boolean (b != 0))
      | [] => Except.error StatusCode.BadDecodingError
    else if t = 6 then
      match readU32 rest with
      | some (v, _) =>
        Except.ok (Variant.Int32 (if v < 0x80000000 then (v : Int) else (v : Int) - 0x100000000))
      | none => Except.error StatusCode.BadDecodingError
    else if t = 12 then decodeLenPrefixed opts.max_string_length rest Variant.UAString
    else if t = 15 then decodeLenPrefixed opts.max_byte_string_length rest Variant.ByteString
    else Except.error StatusCode.BadDecodingError

/-- The fuzz harness entrypoint `deserialize` from
`src/types/fuzz/fuzz_targets/fuzz_target_1.rs`: wraps the data in a stream and
calls `Variant::decode` with the given options. -/
def deserialize (data : List Nat) (decoding_options : DecodingOptions) :
    Except StatusCode Variant :=
  Variant.decode data decoding_options

/-- A hand-built endpoint in the shape produced by
`ServerEndpoint::default_anonymous`, used as a concrete test fixture. -/
def anonymousEndpointFixture : ServerEndpoint :=
  { name := "Default", path := "/", security_policy := "None",
    security_mode := "None", anonymous := some true, user := none, pass := none }

/-- A concrete valid configuration (one anonymous endpoint, default limits). -/
def validConfigFixture : ServerConfig := ServerConfig.default [anonymousEndpointFixture]

/-- A concrete configuration that is syntactically well-formed but violates the
`max_array_length ≠ 0` invariant. -/
def zeroArrayLengthConfig : ServerConfig :=
  { ServerConfig.default [anonymousEndpointFixture] with max_array_length := 0 }

/-- The endpoint produced by `ServerEndpoint::new("N", "/p", true, "bob", b"a",
"None", "None")`, used as a concrete test fixture. -/
def bobEndpointFixture : ServerEndpoint :=
  { name := "N", path := "/p", security_policy := "None", security_mode := "None",
    anonymous := some true, user := some "bob", pass := some "a" }

/-- The endpoint produced by `ServerEndpoint::default_user_pass("sample", b"a")`,
used as a concrete test fixture. -/
def sampleUserPassEndpoint : ServerEndpoint :=
  { name := "Default", path := "/", security_policy := "None", security_mode := "None",
    anonymous := some false, user := some "sample", pass := some "a" }

theorem endpoint_roundtrip (e : ServerEndpoint) :
    endpointOfYaml (endpointToYaml e) = some e := by
  obtain ⟨n, p, sp, sm, a, u, ps⟩ := e
  cases a <;> cases u <;> cases ps <;> rfl

theorem decodeEndpoints_roundtrip (l : List ServerEndpoint) :
    decodeEndpoints (l.map endpointToYaml) = some l := by
  induction l with
  | nil => rfl
  | cons e l ih => simp [decodeEndpoints, endpoint_roundtrip, ih]

theorem config_roundtrip (c : ServerConfig) :
    configOfYaml (configToYaml c) = some c := by
  obtain ⟨an, au, pu, pd, ds, ⟨ht, host, port⟩, eps, mal, msl, mbsl⟩ := c
  show (do
    let endpoints ← decodeEndpoints (List.map endpointToYaml eps)
    some { application_name := an, application_uri := au, product_uri := pu,
           pki_dir := pd, discovery_service := ds,
           tcp_config := { hello_timeout := ht, host := host, port := port },
           endpoints := endpoints,
           max_array_length := mal, max_string_length := msl,
           max_byte_string_length := mbsl : ServerConfig }) = some _
  rw [decodeEndpoints_roundtrip]
  rfl

/-- Claim C1: `ServerConfig::is_valid()` returns true if and only if the
endpoints vector is non-empty, every endpoint in it is individually valid, and
`max_array_length`, `max_string_length` and `max_byte_string_length` are each
nonzero. -/
theorem config_is_valid_iff (c : ServerConfig) :
    c.is_valid = true ↔
      (c.endpoints ≠ [] ∧ (∀ e ∈ c.endpoints, e.is_valid = true) ∧
       c.max_array_length ≠ 0 ∧ c.max_string_length ≠ 0 ∧
       c.max_byte_string_length ≠ 0) := by
  unfold ServerConfig.is_valid
  simp only [Bool.and_eq_true, Bool.not_eq_true', List.all_eq_true,
    bne_iff_ne, ne_eq, List.isEmpty_eq_false, and_assoc]

set_option maxHeartbeats 1600000 in
/-- Claim C2: `ServerEndpoint::is_valid()` returns true if and only if user and
pass are both set or both unset; the security policy is one of the four
enumerated values; the security mode is one of the three enumerated values; the
policy is "None" exactly when the mode is "None"; and if both are "None" then
`anonymous` is explicitly `Some(true)`. -/
theorem endpoint_is_valid_iff (e : ServerEndpoint) :
    e.is_valid = true ↔
      (((e.user = none ∧ e.pass = none) ∨ (e.user ≠ none ∧ e.pass ≠ none)) ∧
       (e.security_policy = "None" ∨ e.security_policy = "Basic128Rsa15" ∨
        e.security_policy = "Basic256" ∨ e.security_policy = "Basic256Sha256") ∧
       (e.security_mode = "None" ∨ e.security_mode = "Sign" ∨
        e.security_mode = "SignAndEncrypt") ∧
       (e.security_policy = "None" ↔ e.security_mode = "None") ∧
       (e.security_policy = "None" → e.security_mode = "None" →
        e.anonymous = some true)) := by
  obtain ⟨n, p, sp, sm, a, u, ps⟩ := e
  unfold ServerEndpoint.is_valid
  unfold SECURITY_POLICY_NONE SECURITY_POLICY_BASIC_128_RSA_15
    SECURITY_POLICY_BASIC_256 SECURITY_POLICY_BASIC_256_SHA_256
    SECURITY_MODE_NONE SECURITY_MODE_SIGN SECURITY_MODE_SIGN_AND_ENCRYPT
  cases a <;> cases u <;> cases ps <;>
    (simp only [Bool.and_eq_true, Bool.or_eq_true, Bool.not_eq_true',
      Bool.not_eq_false', Bool.and_eq_false_iff, Bool.or_eq_false_iff,
      beq_iff_eq, bne_iff_ne, beq_eq_false_iff_ne, bne_eq_false_iff_eq,
      Bool.not_true, Bool.not_false, Bool.false_eq_true, Bool.true_eq_false,
      ne_eq, Option.isSome_some, Option.isSome_none, Option.isNone_some,
      Option.isNone_none, Bool.true_and, Bool.and_true, Bool.false_and,
      Bool.and_false, Bool.true_or, Bool.or_true, Bool.false_or, Bool.or_false,
      Option.some.injEq, not_true, not_false_iff, true_and, and_true, false_and,
      and_false, true_or, or_true, false_or, or_false, reduceCtorEq]) <;>
    tauto

/-- Claim C3: if `is_valid()` is false then `save` returns failure and performs
no write at all, for any prior file-system state, target path and outcome of
the (never attempted) create/write operations: the file system after the call
is the one before it. -/
theorem save_invalid_no_write (c : ServerConfig) (fs : FileSystem) (path : String)
    (createOk writeOk : Bool) (h : c.is_valid = false) :
    c.save fs path createOk writeOk = (Except.error (), fs) := by
  simp [ServerConfig.save, h]

/-- Witness for claim C3: the default configuration with an empty endpoint list
is invalid, and saving it leaves an empty file system unchanged and fails. -/
theorem save_invalid_no_write_witness :
    (ServerConfig.default []).is_valid = false ∧
    ServerConfig.save (ServerConfig.default []) (fun _ => none) "server.yaml"
      true true = (Except.error (), (fun _ => none : FileSystem)) :=
  ⟨rfl, save_invalid_no_write (ServerConfig.default []) (fun _ => none)
    "server.yaml" true true rfl⟩

/-- Claim C4: for every valid configuration and every path at which the file
write succeeds (create and write both complete), `save` succeeds and `load`
from the same path returns exactly the saved configuration. -/
theorem save_then_load (c : ServerConfig) (fs : FileSystem) (path : String)
    (h : c.is_valid = true) :
    (c.save fs path true true).1 = Except.ok () ∧
    ServerConfig.load (c.save fs path true true).2 path = Except.ok c := by
  constructor
  · simp [ServerConfig.save, h]
  · simp [ServerConfig.save, h, ServerConfig.load, config_roundtrip]

/-- Witness for claim C4: a concrete valid configuration round-trips through
save and load on an initially empty file system. -/
theorem save_then_load_witness :
    validConfigFixture.is_valid = true ∧
    (validConfigFixture.save (fun _ => none) "server.yaml" true true).1 =
      Except.ok () ∧
    ServerConfig.load
      (validConfigFixture.save (fun _ => none) "server.yaml" true true).2
      "server.yaml" = Except.ok validConfigFixture := by
  refine ⟨rfl, ?_, ?_⟩
  · exact (save_then_load validConfigFixture (fun _ => none) "server.yaml" rfl).1
  · exact (save_then_load validConfigFixture (fun _ => none) "server.yaml" rfl).2

/-- Counterexample for claim C5: at the concrete input `user = "sample"`,
`pass = b"abc"` (a non-empty user and a valid UTF-8 password), the endpoint
produced by `ServerEndpoint::default_user_pass` fails `is_valid`, and so does
the configuration produced by `ServerConfig::default_user_pass` — contradicting
the claim that the user/password factory preset always yields a valid
endpoint/configuration. -/
theorem default_user_pass_counterexample :
    (ServerEndpoint.default_user_pass "sample" [97, 98, 99]).map
      ServerEndpoint.is_valid = some false ∧
    (ServerConfig.default_user_pass "sample" [97, 98, 99]).map
      ServerConfig.is_valid = some false :=
  ⟨rfl, rfl⟩

/-- Claim C5 (amended): for every non-empty user and password, the endpoint
produced by `ServerEndpoint::default_user_pass` has user and pass both set, but
it is NOT valid: the factory leaves `security_policy`/`security_mode` at
"None"/"None" while setting `anonymous` to `Some(false)`, which violates the
no-security-requires-anonymous invariant, so `is_valid()` is false — and the
configuration produced by `ServerConfig::default_user_pass` is invalid too. -/
theorem default_user_pass_amended (user : String) (pass : List Nat)
    (e : ServerEndpoint) (hu : user ≠ "")
    (h : ServerEndpoint.default_user_pass user pass = some e) :
    (e.user = some user ∧ ∃ s, e.pass = some s) ∧ e.is_valid = false ∧
    ∀ cfg, ServerConfig.default_user_pass user pass = some cfg →
      cfg.is_valid = false := by
  unfold ServerEndpoint.default_user_pass ServerEndpoint.new_default
    ServerEndpoint.new at h
  rw [if_neg (by simpa [String.isEmpty_iff] using hu)] at h
  obtain ⟨s, hs, rfl⟩ := Option.map_eq_some'.mp h
  refine ⟨⟨rfl, s, rfl⟩, rfl, ?_⟩
  intro cfg hcfg
  unfold ServerConfig.default_user_pass ServerEndpoint.default_user_pass
    ServerEndpoint.new_default ServerEndpoint.new at hcfg
  rw [if_neg (by simpa [String.isEmpty_iff] using hu), hs] at hcfg
  simp only [Option.map_some'] at hcfg
  obtain rfl := (Option.some.inj hcfg).symm
  rfl

/-- Witness for amended claim C5: at `user = "sample"`, `pass = b"a"` the
factory produces a both-set credential pair that fails `is_valid`. -/
theorem default_user_pass_amended_witness :
    ("sample" : String) ≠ "" ∧
    ServerEndpoint.default_user_pass "sample" [97] = some sampleUserPassEndpoint ∧
    sampleUserPassEndpoint.user = some "sample" ∧
    sampleUserPassEndpoint.is_valid = false := by
  refine ⟨by decide, rfl, ?_, ?_⟩
  · exact (default_user_pass_amended "sample" [97] sampleUserPassEndpoint
      (by decide) rfl).1.1
  · exact (default_user_pass_amended "sample" [97] sampleUserPassEndpoint
      (by decide) rfl).2.1

/-- Claim C6: `load` performs no validity check — a syntactically well-formed
document whose fields violate the invariants (here `max_array_length = 0`)
loads successfully, and the loaded configuration fails `is_valid`. -/
theorem load_skips_validation :
    ServerConfig.load
      (fun q => if q = "server.yaml"
                then some (FileData.doc (configToYaml zeroArrayLengthConfig))
                else none) "server.yaml" = Except.ok zeroArrayLengthConfig ∧
    zeroArrayLengthConfig.is_valid = false :=
  ⟨rfl, rfl⟩

/-- Claim C7: `ServerConfig::default_anonymous()` produces a configuration with
exactly one endpoint, whose security policy and mode are "None", `anonymous` is
`Some(true)`, and user and pass are `None`, and that configuration satisfies
`is_valid()`. -/
theorem default_anonymous_valid :
    ∃ cfg e, ServerConfig.default_anonymous = some cfg ∧
      cfg.endpoints = [e] ∧
      e.security_policy = "None" ∧ e.security_mode = "None" ∧
      e.anonymous = some true ∧ e.user = none ∧ e.pass = none ∧
      cfg.is_valid = true :=
  ⟨_, _, rfl, rfl, rfl, rfl, rfl, rfl, rfl, rfl⟩

/-- Claim C8: the decode entrypoint exercised by the fuzz harness terminates on
every byte sequence (the embedding is a total function) and always returns
either a decoded value or a structured error code; in particular the empty
(truncated) input and an oversized-length-prefixed input yield structured
errors, not crashes. -/
theorem deserialize_total (data : List Nat) (opts : DecodingOptions) :
    ((∃ v, deserialize data opts = Except.ok v) ∨
     (∃ c, deserialize data opts = Except.error c)) ∧
    deserialize [] opts = Except.error StatusCode.BadDecodingError ∧
    deserialize [12, 255, 255, 255, 127] DecodingOptions.default =
      Except.error StatusCode.BadEncodingLimitsExceeded := by
  refine ⟨?_, rfl, rfl⟩
  cases h : deserialize data opts with
  | ok v => exact Or.inl ⟨v, rfl⟩
  | error c => exact Or.inr ⟨c, rfl⟩

/-- Claim C9: whenever `ServerEndpoint::new` returns, the endpoint has
`user = None` and `pass = None` when the user argument is empty, and
`user = Some(user)` together with `pass = Some(..)` otherwise; the pass
argument is silently ignored when the user is empty; and every
constructor-built endpoint satisfies the both-set-or-both-unset credential
invariant. -/
theorem new_credentials_shape (name path : String) (anonymous : Bool)
    (user : String) (pass otherPass : List Nat) (sp sm : String)
    (e : ServerEndpoint)
    (h : ServerEndpoint.new name path anonymous user pass sp sm = some e) :
    ((user = "" → e.user = none ∧ e.pass = none) ∧
     (user ≠ "" → e.user = some user ∧ ∃ s, e.pass = some s) ∧
     e.user.isSome = e.pass.isSome) ∧
    (user = "" →
      ServerEndpoint.new name path anonymous user pass sp sm =
      ServerEndpoint.new name path anonymous user otherPass sp sm) := by
  unfold ServerEndpoint.new at *
  by_cases hu : user = ""
  · simp only [hu, String.isEmpty_iff, if_pos rfl, reduceIte] at h ⊢
    obtain rfl := Option.some.injEq .. ▸ h
    simp
  · rw [if_neg (by simpa [String.isEmpty_iff] using hu)] at h ⊢
    obtain ⟨s, hs, rfl⟩ := Option.map_eq_some'.mp h
    simp [hu]

/-- Witness for claim C9: the concrete call
`ServerEndpoint::new("N", "/p", true, "bob", b"a", "None", "None")` returns an
endpoint with both credentials set. -/
theorem new_credentials_shape_witness :
    ServerEndpoint.new "N" "/p" true "bob" [97] "None" "None" =
      some bobEndpointFixture ∧
    bobEndpointFixture.user = some "bob" ∧
    bobEndpointFixture.user.isSome = bobEndpointFixture.pass.isSome := by
  refine ⟨rfl, ?_, ?_⟩
  · exact ((new_credentials_shape "N" "/p" true "bob" [97] [98] "None" "None"
      bobEndpointFixture rfl).1.2.1 (by decide)).1
  · exact (new_credentials_shape "N" "/p" true "bob" [97] [98] "None" "None"
      bobEndpointFixture rfl).1.2.2

/-- Claim C10: `ServerEndpoint::new` returns normally exactly when the user
argument is empty or the pass byte slice is valid UTF-8; when the user is
non-empty and the pass is not valid UTF-8, the unwrapped UTF-8 conversion
panics (embedded as `none`). -/
theorem new_totality_iff (name path : String) (anonymous : Bool) (user : String)
    (pass : List Nat) (sp sm : String) :
    (ServerEndpoint.new name path anonymous user pass sp sm).isSome = true ↔
      (user = "" ∨ (fromUtf8 pass).isSome = true) := by
  unfold ServerEndpoint.new
  by_cases hu : user = ""
  · simp [hu, String.isEmpty_iff]
  · rw [if_neg (by simpa [String.isEmpty_iff] using hu)]
    simp [hu, Option.isSome_map]
